import Mathlib

/-!
# Verification of the dodotable query engine

A shallow embedding, in Lean 4, of the core of the `dodotable` Python
package (`dodotable/schema.py`, `dodotable/condition.py`, `dodotable/exc.py`,
`dodotable/util.py`), together with theorems settling the specification
claims about it.

Modelling conventions:
* Python `int` is `Int`; Python `//` is `Int.fdiv` (floor division) and
  `math.ceil(a / float(b))` is the exact rational ceiling `ceilDiv`
  (float rounding is exact at the magnitudes exercised here).
* Fallible Python code is `Except PyErr α`; raising an exception is
  `Except.error`.  An exception aborts the current computation, so partial
  in-place mutation that precedes a raise is not observable in the result.
* Request parameter mappings (`request_args`) are association lists
  `List (String × String)`; `Mapping.get` is `argsGet` (first binding wins,
  `none` when the key is absent).
* SQLAlchemy predicate expressions are the deep syntax `BasePred` / `Pred`;
  the engine only ever builds flat predicates and one `or_(...)` of them.
* Rendering (`__html__`, templates, jinja) and the database session are out
  of scope, exactly as in the spec; row slices and counts arrive as
  parameters of `Table.select`.
-/

/-- Python exceptions that the embedded code can raise. -/
inductive PyErr where
  | valueError : PyErr
  | typeError : PyErr
  | indexError : PyErr
  | zeroDivisionError : PyErr
  | nameError : String → PyErr
deriving DecidableEq

/-- The Python values that flow into the embedded code: integers, strings
and `None`.  (The code under verification never branches on other types.) -/
inductive PyVal where
  | int : Int → PyVal
  | str : String → PyVal
  | none_ : PyVal
deriving DecidableEq

/-- Python truthiness for `PyVal`: `0`, `""` and `None` are falsy. -/
def pyTruthy : PyVal → Bool
  | .int n => n != 0
  | .str s => s != ""
  | .none_ => false

/-- Whether a `PyVal` is a `str` (`isinstance(x, string_types)`). -/
def isPyStr : PyVal → Bool
  | .str _ => true
  | _ => false

/-- Truthiness of an optional string (a parameter looked up in a mapping):
`None` and `""` are falsy. -/
def optTruthy : Option String → Bool
  | some s => s != ""
  | none => false

/-- Decidable equality for `Except`, so that concrete evaluations can be
settled by `decide`. -/
instance {ε α : Type} [DecidableEq ε] [DecidableEq α] : DecidableEq (Except ε α) := fun x y =>
  match x, y with
  | .ok a, .ok b =>
    if h : a = b then isTrue (by rw [h]) else isFalse (by intro hh; cases hh; exact h rfl)
  | .error a, .error b =>
    if h : a = b then isTrue (by rw [h]) else isFalse (by intro hh; cases hh; exact h rfl)
  | .ok _, .error _ => isFalse (fun hh => Except.noConfusion hh)
  | .error _, .ok _ => isFalse (fun hh => Except.noConfusion hh)

/-- `true` iff an `Except` computation did not raise. -/
def exIsOk {ε α : Type} : Except ε α → Bool
  | .ok _ => true
  | .error _ => false

/-- Association-list lookup, modelling `Mapping.get(key)`: the first binding
for the key, or `none` when absent. -/
def argsGet : List (String × String) → String → Option String
  | [], _ => none
  | (k, v) :: rest, key => if k = key then some v else argsGet rest key

/-- Leading- and trailing-whitespace removal, modelling Python `str.strip()`. -/
def pyStrip (s : String) : String :=
  String.mk (((s.data.dropWhile Char.isWhitespace).reverse.dropWhile Char.isWhitespace).reverse)

/-- Helper for `pySplit`: accumulates the current field (reversed). -/
def splitCharAux (sep : Char) : List Char → List Char → List String
  | [], acc => [String.mk acc.reverse]
  | c :: cs, acc =>
    if c = sep then String.mk acc.reverse :: splitCharAux sep cs []
    else splitCharAux sep cs (c :: acc)

/-- Modelling Python `str.split(sep)` for a one-character separator:
`"" ↦ [""]`, `"a,b" ↦ ["a", "b"]`, `"a,," ↦ ["a", "", ""]`. -/
def pySplit (s : String) (sep : Char) : List String :=
  splitCharAux sep s.data []

/-- Value of a nonempty all-digit character list, most significant first. -/
def digitsVal (ds : List Char) : Nat :=
  ds.foldl (fun a c => a * 10 + (c.toNat - 48)) 0

/-- Parse a digit run, `none` unless nonempty and all decimal digits. -/
def parseDigits (ds : List Char) : Option Nat :=
  if ds ≠ [] ∧ ds.all Char.isDigit then some (digitsVal ds) else none

/-- Modelling Python `int(s)` on a string: strip whitespace, optional sign,
then a nonempty digit run; anything else is a `ValueError`. -/
def pyIntOfString (s : String) : Option Int :=
  match (pyStrip s).data with
  | '-' :: ds => (parseDigits ds).map (fun n => -(Int.ofNat n))
  | '+' :: ds => (parseDigits ds).map Int.ofNat
  | ds => (parseDigits ds).map Int.ofNat

/-- Modelling the Python builtin `int(x)`: identity on ints, string parsing
(`ValueError` on failure), and `TypeError` on `None`. -/
def pyIntCast : PyVal → Except PyErr Int
  | .int n => .ok n
  | .str s =>
    match pyIntOfString s with
    | some n => .ok n
    | none => .error .valueError
  | .none_ => .error .typeError

/-- Modelling `self.type_(word)` for `type_ = int` where `word` is an
optional request parameter: `int(None)` raises `TypeError`, an unparsable
string raises `ValueError`. -/
def pyIntCoerce : Option String → Except PyErr PyVal
  | none => .error .typeError
  | some s =>
    match pyIntOfString s with
    | some n => .ok (.int n)
    | none => .error .valueError

/-- Exact rational ceiling of `a / b`, modelling
`int(math.ceil(a / float(b)))` for the magnitudes used here. -/
def ceilDiv (a b : Int) : Int := -((-a).fdiv b)

/-! ## Predicate expressions

The SQLAlchemy expressions the engine constructs, as deep syntax.  Every
filter primitive produces a flat `BasePred`; the only composite the engine
builds is `or_(*preds)` in `IlikeSet.__query__`. -/

/-- A flat SQLAlchemy predicate over one attribute. -/
inductive BasePred where
  | inList : String → List String → BasePred
  | eqVal : String → PyVal → BasePred
  | isNull : String → BasePred
  | isNotNull : String → BasePred
  | ilike : String → String → BasePred
  | falseP : BasePred
deriving DecidableEq

/-- A predicate: flat, or an `or_` of flat predicates. -/
inductive SqlPred where
  | base : BasePred → SqlPred
  | orL : List BasePred → SqlPred
deriving DecidableEq

/-! ## Pager (`dodotable/schema.py`, class `Pager`) -/

/-- The four integer fields of a `Pager` after construction. -/
structure Pager where
  limit : Int
  offset : Int
  count : Int
  padding : Int
deriving DecidableEq

/-- `Pager.__init__(limit, offset, count, padding=10)`: each argument is
passed through `int(...)` in order inside one `try`; a `ValueError` from any
of them resets all four fields to `(10, 0, 0, 10)`; any other exception
(e.g. `TypeError` from `int(None)`) propagates. -/
def Pager.init (limit offset count padding : PyVal) : Except PyErr Pager :=
  match pyIntCast limit with
  | .error .valueError => .ok ⟨10, 0, 0, 10⟩
  | .error e => .error e
  | .ok l =>
    match pyIntCast offset with
    | .error .valueError => .ok ⟨10, 0, 0, 10⟩
    | .error e => .error e
    | .ok o =>
      match pyIntCast count with
      | .error .valueError => .ok ⟨10, 0, 0, 10⟩
      | .error e => .error e
      | .ok c =>
        match pyIntCast padding with
        | .error .valueError => .ok ⟨10, 0, 0, 10⟩
        | .error e => .error e
        | .ok p => .ok ⟨l, o, c, p⟩

/-- One entry of `Pager.pages` (the namedtuple `Page`). -/
structure Page where
  selected : Bool
  number : Int
  limit : Int
  offset : Int
deriving DecidableEq

/-- `page_count = int(math.ceil(self.count / float(self.limit)))`. -/
def Pager.pageCount (p : Pager) : Int := ceilDiv p.count p.limit

/-- `current_page_count = (self.offset // self.limit) + 1`. -/
def Pager.currentPage (p : Pager) : Int := p.offset.fdiv p.limit + 1

/-- `start = ((current_page_count - 1) // self.padding) * 10 + 1` (the
block multiplier is the literal `10` in the source, not `padding`). -/
def Pager.blockStart (p : Pager) : Int :=
  ((Pager.currentPage p - 1).fdiv p.padding) * 10 + 1

/-- Fuel-driven unfolding of the `while` loop inside `Pager.range`:
`while i <= end and i <= max_: (yield i if i > min_); i += 1`.
Returns the yielded list together with the final value of `i`.
The fuel passed by `rangeWhile` strictly exceeds the number of
iterations, so the fuel-exhausted branch is never taken. -/
def rangeWhileAux : Nat → Int → Int → Int → Int → List Int × Int
  | 0, i, _, _, _ => ([], i)
  | fuel + 1, i, e, m, mn =>
    if i ≤ e ∧ i ≤ m then
      ((if mn < i then i :: (rangeWhileAux fuel (i + 1) e m mn).1
        else (rangeWhileAux fuel (i + 1) e m mn).1),
       (rangeWhileAux fuel (i + 1) e m mn).2)
    else ([], i)

/-- The `while` loop of `Pager.range`, with sufficient fuel: the loop body
runs at most `(e - i).toNat + 1` times. -/
def rangeWhile (i e m mn : Int) : List Int × Int :=
  rangeWhileAux ((e - i).toNat + (m - i).toNat + 2) i e m mn

/-- `Pager.range(start, end, max_, min_=1)`: yields `min_`, then the `while`
loop, then `max_` if the final `i` is still `< max_`. -/
def Pager.rangeList (start e m mn : Int) : List Int :=
  mn :: ((rangeWhile start e m mn).1 ++ (if (rangeWhile start e m mn).2 < m then [m] else []))

/-- The `pages` property: map every yielded page number to a `Page`
namedtuple, with `selected` set exactly on the current page. -/
def Pager.pages (p : Pager) : List Page :=
  (Pager.rangeList (Pager.blockStart p) (Pager.blockStart p + p.padding - 1)
      (Pager.pageCount p) 1).map
    (fun page =>
      { selected := page == Pager.currentPage p
        number := page
        limit := p.limit
        offset := p.limit * (page - 1) })

/-- The page numbers of `Pager.pages`, in order. -/
def Pager.pagesNumbers (p : Pager) : List Int :=
  (Pager.pages p).map Page.number

/-- The integer interval `[lo, hi]` as a list (`[]` when `hi < lo`),
via fuel for kernel-reducibility. -/
def intRangeAux : Nat → Int → List Int
  | 0, _ => []
  | n + 1, lo => lo :: intRangeAux n (lo + 1)

/-- The integer interval `[lo, hi]` as a list (`[]` when `hi < lo`). -/
def intRange (lo hi : Int) : List Int := intRangeAux (hi + 1 - lo).toNat lo

/-! ## Filters (`dodotable/condition.py`) -/

/-- One `{name, description}` choice of a `SelectFilter`. -/
structure Choice where
  name : String
  description : String
deriving DecidableEq

/-- The state of a `SelectFilter` after `__init__` (the `cls` and the bound
SQLAlchemy attribute are represented by `attribute_name`).  `choices` is the
stored list, i.e. `[{'name': 'all', ...}] + declared`. -/
structure SelectFilter where
  attribute_name : String
  choices : List Choice
  request_args : List (String × String)
  default : Option String

/-- `SelectFilter.__init__(cls, attribute_name, choices, request_args,
default=None)`: prepends the `all` sentinel choice to the declared ones. -/
def SelectFilter.make (attribute_name : String) (declared : List Choice)
    (request_args : List (String × String)) (default : Option String) : SelectFilter :=
  { attribute_name := attribute_name
    choices := ⟨"all", "모두"⟩ :: declared
    request_args := request_args
    default := default }

/-- The names of the stored choices: `[c['name'] for c in self.choices]`. -/
def SelectFilter.choiceNames (f : SelectFilter) : List String :=
  f.choices.map Choice.name

/-- `s = self.request_args.get('select.' + attribute_name, self.default)`. -/
def SelectFilter.selector (f : SelectFilter) : Option String :=
  match argsGet f.request_args ("select." ++ f.attribute_name) with
  | some v => some v
  | none => f.default

/-- `SelectFilter.__query__`: falsy selector restricts to the stored choice
names (`attribute.in_(choices)`); a value outside them executes
`raise BadChoice(description=...)` — but `BadChoice` subclasses plain
`Exception`, and `BaseException.__init__` rejects keyword arguments, so
constructing the exception itself raises
`TypeError: BadChoice() takes no keyword arguments`; `'all'` yields no
predicate; any other stored choice yields an equality predicate. -/
def SelectFilter.query (f : SelectFilter) : Except PyErr (Option BasePred) :=
  match SelectFilter.selector f with
  | none => .ok (some (.inList f.attribute_name (SelectFilter.choiceNames f)))
  | some v =>
    if v = "" then .ok (some (.inList f.attribute_name (SelectFilter.choiceNames f)))
    else if v ∉ SelectFilter.choiceNames f then .error .typeError
    else if v = "all" then .ok none
    else .ok (some (.eqVal f.attribute_name (.str v)))

/-- `NullSelectableSelectFilter.__query__`: runs the base `__query__` first
(so its `BadChoice`/`TypeError` propagates), then overrides the result with
an is-null / is-not-null predicate when the selector is the `'null'` /
`'not-null'` sentinel. -/
def NullSelectableSelectFilter.query (f : SelectFilter) : Except PyErr (Option BasePred) :=
  match SelectFilter.query f with
  | .error e => .error e
  | .ok q =>
    if SelectFilter.selector f = some "null" then .ok (some (.isNull f.attribute_name))
    else if SelectFilter.selector f = some "not-null" then .ok (some (.isNotNull f.attribute_name))
    else .ok q

/-- `create_search_name(name)`: the `(word, type)` parameter-key pair
`('search_<name>.word', 'search_<name>.type')`. -/
def create_search_name (name : String) : String × String :=
  ("search_" ++ name ++ ".word", "search_" ++ name ++ ".type")

/-- Python string interpolation of an optional value:
`'%{word}%'.format(word=None)` renders `None` as the text `"None"`. -/
def pyFormatOpt : Option String → String
  | some s => s
  | none => "None"

/-- The state of an `Ilike` filter.  `target` is the precomputed
`camel_to_underscore(cls.__name__)` of the owning entity. -/
structure Ilike where
  target : String
  attribute_name : String
  request_args : List (String × String)

/-- `Ilike.__query__`: activates when the `search_<target>.type` parameter
equals this filter's attribute name, producing
`attribute.ilike('%{word}%')`; the word is interpolated even when absent. -/
def Ilike.query (f : Ilike) : Option BasePred :=
  if argsGet f.request_args (create_search_name f.target).2 = some f.attribute_name then
    some (.ilike f.attribute_name
      ("%" ++ pyFormatOpt (argsGet f.request_args (create_search_name f.target).1) ++ "%"))
  else none

/-- The state of an `IlikeAlias` filter: `identifier` replaces the class
name and `alias_name` is `alias_attr.name`. -/
structure IlikeAlias where
  identifier : String
  alias_name : String
  request_args : List (String × String)

/-- `IlikeAlias.__query__`: additionally requires the word to be truthy
(`if word and type == self.alias_attr.name`). -/
def IlikeAlias.query (f : IlikeAlias) : Option BasePred :=
  if optTruthy (argsGet f.request_args (create_search_name f.identifier).1) = true
      ∧ argsGet f.request_args (create_search_name f.identifier).2 = some f.alias_name then
    some (.ilike f.alias_name
      ("%" ++ pyFormatOpt (argsGet f.request_args (create_search_name f.identifier).1) ++ "%"))
  else none

/-- The state of an `Equal` filter; `coerce` is the declared value type
`self.type_` applied to the (optional) word parameter — e.g. `pyIntCoerce`
for `type_ = int`. -/
structure Equal where
  target : String
  attribute_name : String
  coerce : Option String → Except PyErr PyVal
  request_args : List (String × String)

/-- `Equal.__query__`: same activation rule as `Ilike` (matched `type`
parameter, no truthiness test on the word); on activation coerces the word,
catching only `ValueError` (which becomes the `false()` predicate) — any
other exception, e.g. `TypeError` from `int(None)`, propagates. -/
def Equal.query (f : Equal) : Except PyErr (Option BasePred) :=
  if argsGet f.request_args (create_search_name f.target).2 = some f.attribute_name then
    match f.coerce (argsGet f.request_args (create_search_name f.target).1) with
    | .ok v => .ok (some (.eqVal f.attribute_name v))
    | .error .valueError => .ok (some .falseP)
    | .error e => .error e
  else .ok none

/-- The state of an `EqualAlias` filter. -/
structure EqualAlias where
  identifier : String
  alias_name : String
  coerce : Option String → Except PyErr PyVal
  request_args : List (String × String)

/-- `EqualAlias.__query__`: activation additionally requires a truthy word
(`if word and type == self.alias_attr.name`); on activation coerces the
word, catching only `ValueError` (which becomes `false()`). -/
def EqualAlias.query (f : EqualAlias) : Except PyErr (Option BasePred) :=
  if optTruthy (argsGet f.request_args (create_search_name f.identifier).1) = true
      ∧ argsGet f.request_args (create_search_name f.identifier).2 = some f.alias_name then
    match f.coerce (argsGet f.request_args (create_search_name f.identifier).1) with
    | .ok v => .ok (some (.eqVal f.alias_name v))
    | .error .valueError => .ok (some .falseP)
    | .error e => .error e
  else .ok none

/-- A filter primitive attached to a column, tagged by its Python class.
The class hierarchy is `Ilike ← IlikeAlias ← EqualAlias` and
`Ilike ← Equal`, so `isinstance(f, Ilike)` holds for the first four
variants and not for the `SelectFilter` family. -/
inductive FilterPrim where
  | ilikeF : Ilike → FilterPrim
  | ilikeAliasF : IlikeAlias → FilterPrim
  | equalF : Equal → FilterPrim
  | equalAliasF : EqualAlias → FilterPrim
  | selectF : SelectFilter → FilterPrim
  | nullSelectF : SelectFilter → FilterPrim

/-- `isinstance(f, Ilike)`: true for `Ilike` and all its subclasses
(`IlikeAlias`, `Equal`, `EqualAlias`). -/
def FilterPrim.isIlike : FilterPrim → Bool
  | .ilikeF _ => true
  | .ilikeAliasF _ => true
  | .equalF _ => true
  | .equalAliasF _ => true
  | .selectF _ => false
  | .nullSelectF _ => false

/-- `f.__query__()`, dispatched on the filter's class. -/
def FilterPrim.query : FilterPrim → Except PyErr (Option BasePred)
  | .ilikeF f => .ok (Ilike.query f)
  | .ilikeAliasF f => .ok (IlikeAlias.query f)
  | .equalF f => Equal.query f
  | .equalAliasF f => EqualAlias.query f
  | .selectF f => SelectFilter.query f
  | .nullSelectF f => NullSelectableSelectFilter.query f

/-! ## Order resolution (`dodotable/condition.py`, class `Order`) -/

/-- A resolved sort direction (`Order.ASCENDANT` / `Order.DESCENDANT`). -/
inductive OrderDir where
  | asc : OrderDir
  | desc : OrderDir
deriving DecidableEq

/-- `Order.asc_order_name(attr) = '<attr>.asc'`. -/
def Order.asc_order_name (attr : String) : String := attr ++ ".asc"

/-- `Order.desc_order_name(attr) = '<attr>.desc'`. -/
def Order.desc_order_name (attr : String) : String := attr ++ ".desc"

/-- The direction contributed by one comma-separated token of the
`order_by` parameter: the `if o.strip() == asc_order / elif ... desc_order`
comparison of the loop body of `Order.of_column`. -/
def Order.tokenDir (attr : String) (o : String) : Option OrderDir :=
  if pyStrip o = Order.asc_order_name attr then some .asc
  else if pyStrip o = Order.desc_order_name attr then some .desc
  else none

/-- `Order.of_column(attr, order_by)`: `None` for a falsy or non-string
parameter; otherwise fold over the comma-separated tokens, each matching
token overwriting the accumulator (so a later token wins). -/
def Order.of_column (attr : String) (order_by : PyVal) : Option OrderDir :=
  match order_by with
  | .str s =>
    if s = "" then none
    else (pySplit s ',').foldl
      (fun acc o =>
        match Order.tokenDir attr o with
        | some d => some d
        | none => acc) none
  | _ => none

/-- A SQLAlchemy ordering expression `asc(attr)` / `desc(attr)`. -/
inductive OrderQuery where
  | asc : String → OrderQuery
  | desc : String → OrderQuery
deriving DecidableEq

/-- `Order(cls, attribute_name, order).__query__()`:
`self.order = order or DESCENDANT`, then `desc`/`asc` of the attribute. -/
def Order.queryOf (attr : String) (order : Option OrderDir) : OrderQuery :=
  match order.getD .desc with
  | .desc => .desc attr
  | .asc => .asc attr

/-! ## Rows, cells, columns and tables (`dodotable/schema.py`) -/

/-- A Python data object reachable from a row: either an atomic value or an
object with named attributes (`getattr` looks them up). -/
inductive PyObj where
  | leaf : PyVal → PyObj
  | obj : List (String × PyObj) → PyObj

/-- Attribute lookup on the attribute list of a `PyObj.obj`. -/
def attrLookup : List (String × PyObj) → String → Option PyObj
  | [], _ => none
  | (k, v) :: rest, key => if k = key then some v else attrLookup rest key

/-- `getattr(x, name)`, `none` meaning `AttributeError`. -/
def getattrOpt : PyObj → String → Option PyObj
  | .leaf _, _ => none
  | .obj attrs, n => attrLookup attrs n

/-- The inner `__data__` recursion of `dodotable.util._get_data`: walk the
dotted name chain, returning `default` the moment a segment is missing. -/
def getDataAux (default : Option PyObj) : PyObj → List String → Option PyObj
  | d, [] => some d
  | d, n :: rest =>
    match getattrOpt d n with
    | some x => getDataAux default x rest
    | none => default

/-- `_get_data(data, attribute_name, default)`: split the attribute name on
dots and traverse. -/
def _get_data (data : PyObj) (attribute_name : String) (default : Option PyObj) : Option PyObj :=
  getDataAux default data (pySplit attribute_name '.')

/-- A table cell (`Cell(col, row, data, ...)`); the formatting function and
CSS classes are rendering-only and omitted. -/
structure Cell where
  col : Nat
  row : Nat
  data : Option PyObj

/-- A column descriptor.  `order_by` stores the result of
`Order.of_column(attr, order_by)` computed in `Column.__init__`; `filters`
is the mutable filter list; rendering-only fields (label, `_repr`,
`sortable`, `editable`, `classes`) are omitted. -/
structure Column where
  attr : String
  order_by : Option OrderDir
  visible : Bool
  filters : List FilterPrim

/-- `Column.__cell__(col, row, data, attribute_name, default=None)`. -/
def Column.toCell (c : Column) (col row : Nat) (data : PyObj) : Cell :=
  { col := col, row := row, data := _get_data data c.attr none }

/-- A filter registered on a table via `Table.add_filter`.  An
`IlikeSet` holds a reference to its owning table, so it is interpreted
against the table's columns at query time. -/
inductive TableFilter where
  | prim : FilterPrim → TableFilter
  | ilikeSetF : TableFilter

/-- The state of a `Table` that the query-building path reads and writes.
`cls`, labels and the SQLAlchemy session are omitted: the external data
source supplies row slices and counts as parameters of `Table.select`. -/
structure Table where
  _columns : List Column
  _filters : List TableFilter
  rows : List (List Cell)
  pager : Pager

/-- The `columns` property: the visible subsequence of `_columns`. -/
def Table.visibleColumns (t : Table) : List Column :=
  t._columns.filter (fun c => c.visible)

/-- The inner loop of `IlikeSet.__query__` over one column's filter list:
collect `f.__query__()` for every `isinstance(f, Ilike)` filter whose query
is not `None`; a raising query propagates, and non-`Ilike` filters are
never evaluated. -/
def collectIlike : List FilterPrim → Except PyErr (List BasePred)
  | [] => .ok []
  | f :: fs =>
    if FilterPrim.isIlike f then
      match FilterPrim.query f with
      | .error e => .error e
      | .ok none => collectIlike fs
      | .ok (some p) =>
        match collectIlike fs with
        | .error e => .error e
        | .ok ps => .ok (p :: ps)
    else collectIlike fs

/-- The outer loop of `IlikeSet.__query__` over `self.table._columns`. -/
def collectIlikeCols : List Column → Except PyErr (List BasePred)
  | [] => .ok []
  | c :: cs =>
    match collectIlike c.filters with
    | .error e => .error e
    | .ok ps =>
      match collectIlikeCols cs with
      | .error e => .error e
      | .ok qs => .ok (ps ++ qs)

/-- `IlikeSet.__query__` for an `IlikeSet` owning table `t`:
`or_(*filter_) if filter_ else None`. -/
def IlikeSet.query (t : Table) : Except PyErr (Option SqlPred) :=
  match collectIlikeCols t._columns with
  | .error e => .error e
  | .ok [] => .ok none
  | .ok ps => .ok (some (.orL ps))

/-- `filter.__query__()` for one table-level filter. -/
def TableFilter.queryIn (t : Table) : TableFilter → Except PyErr (Option SqlPred)
  | .prim f =>
    match FilterPrim.query f with
    | .error e => .error e
    | .ok none => .ok none
    | .ok (some p) => .ok (some (.base p))
  | .ilikeSetF => IlikeSet.query t

/-- The `_filter_queries` generator consumed by `build_base_query`: each
filter's query in order, keeping the non-`None` ones (`query.filter(...)`),
with a raising query propagating. -/
def filterPredsAux (t : Table) : List TableFilter → Except PyErr (List SqlPred)
  | [] => .ok []
  | f :: fs =>
    match TableFilter.queryIn t f with
    | .error e => .error e
    | .ok q =>
      match filterPredsAux t fs with
      | .error e => .error e
      | .ok ps => .ok (match q with | some p => p :: ps | none => ps)

/-- `Table.build_base_query`: the conjunction (list) of the non-`None`
filter predicates applied to the base entity query. -/
def Table.build_base_query (t : Table) : Except PyErr (List SqlPred) :=
  filterPredsAux t t._filters

/-- Update the first visible column of the list in place (aliasing:
`self.columns[0]` is the first visible element of `self._columns`). -/
def mutateFirstVisible (d : OrderDir) : List Column → List Column
  | [] => []
  | c :: cs =>
    if c.visible then { c with order_by := some d } :: cs
    else c :: mutateFirstVisible d cs

/-- The loop of `Table._order_queries`: `Order(cls, attr, order_by)` for
every visible column with a truthy `order_by`. -/
def Table.orderList (t : Table) : List OrderQuery :=
  (Table.visibleColumns t).filterMap
    (fun c => c.order_by.map (fun d => Order.queryOf c.attr (some d)))

/-- `Table._order_queries`: the explicit per-column orders; when there are
none, fall back to `Order(self.cls, self.columns[0].attr)` (descending),
writing the default back into `self.columns[0].order_by` — an `IndexError`
when there is no visible column.  Returns the order list together with the
(possibly mutated) table. -/
def Table._order_queries (t : Table) : Except PyErr (List OrderQuery × Table) :=
  if Table.orderList t = [] then
    match Table.visibleColumns t with
    | [] => .error .indexError
    | c :: _ =>
      .ok ([Order.queryOf c.attr none],
           { t with _columns := mutateFirstVisible .desc t._columns })
  else .ok (Table.orderList t, t)

/-- A built query: the filter conjunction and the ordering. -/
structure DBQuery where
  preds : List SqlPred
  order : List OrderQuery

/-- The `query` property: `build_base_query().order_by(*self._order_queries)`
(the base query is built first, then the ordering is resolved, mutating the
table's first visible column when falling back). -/
def Table.query (t : Table) : Except PyErr (DBQuery × Table) :=
  match Table.build_base_query t with
  | .error e => .error e
  | .ok ps =>
    match Table._order_queries t with
    | .error e => .error e
    | .ok (os, t') => .ok (⟨ps, os⟩, t')

/-- The body of the inner `for j, col in enumerate(self.columns)` loop of
`Table.select` for one row: the first iteration builds the cell via
`col.__cell__(...)` and appends it, then executes `pprint(default)` — but
no name `default` is bound in `Table.select`, so the lookup raises
`NameError: name 'default' is not defined`.  With no visible columns the
loop body never runs and the (empty) row is kept. -/
def materializeRow (cols : List Column) (rowIdx : Nat) (data : PyObj) : Except PyErr (List Cell)
  :=
  match cols with
  | [] => .ok []
  | c :: _ =>
    let _cell := Column.toCell c 0 rowIdx data
    .error (.nameError "default")

/-- The outer `for i, row in enumerate(q)` loop of `Table.select`: build a
`Row` per returned data record.  (The debug `pprint`/`print` calls over
`row._sa_instance_state` are output-only and modelled as no-ops for ORM
entity rows.) -/
def materializeRows (cols : List Column) : Nat → List PyObj → Except PyErr (List (List Cell))
  | _, [] => .ok []
  | i, r :: rs =>
    match materializeRow cols i r with
    | .error e => .error e
    | .ok row =>
      match materializeRows cols (i + 1) rs with
      | .error e => .error e
      | .ok rest => .ok (row :: rest)

/-- `Table.select(offset, limit)`: reset `rows`, build the sliced query
(the slice it yields arrives as the `slice` parameter, and the
authoritative `count` as `countVal`), materialize each row, then replace
the pager with `Pager(limit=limit, offset=offset, count=self.count)`
(`int` of an `int` is the identity, so that constructor cannot reset).
The initial `self.rows = []` is superseded by the final row assignment and
queries never read `rows`, so it is not modelled separately. -/
def Table.select (t : Table) (offset limit : Int) (slice : List PyObj) (countVal : Int) :
    Except PyErr Table :=
  match Table.query t with
  | .error e => .error e
  | .ok (_q, t1) =>
    match materializeRows (Table.visibleColumns t1) 0 slice with
    | .error e => .error e
    | .ok rows =>
      .ok { t1 with
            rows := rows
            pager := { limit := limit, offset := offset, count := countVal, padding := 10 } }

/-! ## Lemmas about the pager window -/

/-- `intRange` unfolds to a cons when the interval is nonempty. -/
theorem intRange_cons {lo hi : Int} (h : lo ≤ hi) :
    intRange lo hi = lo :: intRange (lo + 1) hi := by
  unfold intRange
  have h1 : (hi + 1 - lo).toNat = (hi + 1 - (lo + 1)).toNat + 1 := by omega
  rw [h1]
  rfl

/-- `intRange` is empty on an empty interval. -/
theorem intRange_nil {lo hi : Int} (h : hi < lo) : intRange lo hi = [] := by
  unfold intRange
  have h1 : (hi + 1 - lo).toNat = 0 := by omega
  rw [h1]
  rfl

/-- Closed form of the `Pager.range` while-loop with sufficient fuel: the
yields are the candidates `i .. min e m` above `mn`, and the final counter
is `min e m + 1` (or `i` untouched if the guard fails at once). -/
theorem rangeWhileAux_spec :
    ∀ (fuel : Nat) (i e m mn : Int), (min e m + 1 - i).toNat < fuel →
      rangeWhileAux fuel i e m mn =
        ((intRange i (min e m)).filter (fun x => decide (mn < x)),
         if i ≤ min e m then min e m + 1 else i) := by
  intro fuel
  induction fuel with
  | zero => intro i e m mn h; omega
  | succ n ih =>
    intro i e m mn h
    by_cases hg : i ≤ e ∧ i ≤ m
    · have hM : i ≤ min e m := le_min hg.1 hg.2
      simp only [rangeWhileAux, if_pos hg]
      rw [ih (i + 1) e m mn (by omega)]
      rw [intRange_cons hM, List.filter_cons]
      by_cases hlt : mn < i
      · simp only [hlt, decide_True, if_pos hlt, if_pos hM, if_true]
        refine Prod.ext rfl ?_
        simp only
        split <;> omega
      · simp only [hlt, decide_False, if_neg hlt, if_pos hM, if_false]
        refine Prod.ext rfl ?_
        simp only
        split <;> omega
    · have hM : min e m < i := by omega
      simp only [rangeWhileAux, if_neg hg]
      rw [intRange_nil hM]
      simp only [List.filter_nil]
      rw [if_neg (by omega)]

/-- Closed form of `rangeWhile` (the fuel suffices). -/
theorem rangeWhile_spec (i e m mn : Int) :
    rangeWhile i e m mn =
      ((intRange i (min e m)).filter (fun x => decide (mn < x)),
       if i ≤ min e m then min e m + 1 else i) := by
  apply rangeWhileAux_spec
  omega

/-- The page numbers of `Pager.pages` are exactly the numbers yielded by
`Pager.range(start, start + padding - 1, max_=page_count)`. -/
theorem pagesNumbers_eq_rangeList (p : Pager) :
    Pager.pagesNumbers p =
      Pager.rangeList (Pager.blockStart p) (Pager.blockStart p + p.padding - 1)
        (Pager.pageCount p) 1 := by
  unfold Pager.pagesNumbers Pager.pages
  rw [List.map_map]
  exact List.map_id' _

/-- The page-number list that claim C2 describes: candidates from `start`
to `start + padding - 1`, page 1 force-included first, candidates `≤ 1`
skipped, and `pageCount` force-included last whenever the enumeration did
not already reach it. -/
def c2ClaimedWindow (p : Pager) : List Int :=
  let cands := intRange (Pager.blockStart p) (Pager.blockStart p + p.padding - 1)
  1 :: ((cands.filter (fun x => decide (1 < x)))
    ++ (if Pager.pageCount p ∈ cands then [] else [Pager.pageCount p]))

/-- Claim C2 fails on the code: for `Pager(limit=10, offset=0, count=105,
padding=10)` the candidate enumeration is `1..10` and `pageCount = 11` is
not reached, yet the code emits `[1..10]` without the final `11` (the
source guard is `if i < max_` with `i = 11`), while the claimed enumeration
ends in `11`. -/
theorem c2_counterexample :
    Pager.pagesNumbers ⟨10, 0, 105, 10⟩ = [1, 2, 3, 4, 5, 6, 7, 8, 9, 10] ∧
    c2ClaimedWindow ⟨10, 0, 105, 10⟩ = [1, 2, 3, 4, 5, 6, 7, 8, 9, 10, 11] ∧
    Pager.pageCount ⟨10, 0, 105, 10⟩ = 11 := by
  refine ⟨?_, ?_, ?_⟩ <;> decide

/-- Claim C2 (amended): for every `Pager` with positive `limit` and
`padding` (Python raises `ZeroDivisionError` otherwise), `pages` enumerates
the candidates from `start` to `start + padding - 1` capped at `pageCount`,
force-including page 1 first and skipping candidates `≤ 1`; `pageCount` is
force-included last exactly when the loop counter stops strictly below it,
i.e. when `max(start, min(start + padding - 1, pageCount) + 1) < pageCount`
— in particular, when the candidate run ends exactly at `pageCount - 1`,
`pageCount` is *not* appended. -/
theorem c2_pages_window (p : Pager) (_hl : 0 < p.limit) (_hpad : 0 < p.padding) :
    Pager.pagesNumbers p =
      1 :: (((intRange (Pager.blockStart p)
            (min (Pager.blockStart p + p.padding - 1) (Pager.pageCount p))).filter
              (fun x => decide (1 < x)))
        ++ (if (if Pager.blockStart p
                    ≤ min (Pager.blockStart p + p.padding - 1) (Pager.pageCount p)
                then min (Pager.blockStart p + p.padding - 1) (Pager.pageCount p) + 1
                else Pager.blockStart p) < Pager.pageCount p
            then [Pager.pageCount p] else [])) := by
  rw [pagesNumbers_eq_rangeList]
  unfold Pager.rangeList
  rw [rangeWhile_spec]

/-- Witness for `c2_pages_window` at the spec §8 example
`limit=10, offset=0, count=95, padding=10` (window `1..10`). -/
theorem c2_pages_window_witness :
    Pager.pagesNumbers ⟨10, 0, 95, 10⟩ =
      1 :: (((intRange (Pager.blockStart ⟨10, 0, 95, 10⟩)
            (min (Pager.blockStart ⟨10, 0, 95, 10⟩ + (10 : Int) - 1)
              (Pager.pageCount ⟨10, 0, 95, 10⟩))).filter
              (fun x => decide (1 < x)))
        ++ (if (if Pager.blockStart ⟨10, 0, 95, 10⟩
                    ≤ min (Pager.blockStart ⟨10, 0, 95, 10⟩ + (10 : Int) - 1)
                        (Pager.pageCount ⟨10, 0, 95, 10⟩)
                then min (Pager.blockStart ⟨10, 0, 95, 10⟩ + (10 : Int) - 1)
                    (Pager.pageCount ⟨10, 0, 95, 10⟩) + 1
                else Pager.blockStart ⟨10, 0, 95, 10⟩) < Pager.pageCount ⟨10, 0, 95, 10⟩
            then [Pager.pageCount ⟨10, 0, 95, 10⟩] else [])) :=
  c2_pages_window ⟨10, 0, 95, 10⟩ (by decide) (by decide)

/-! ## Claim C3: Pager construction -/

/-- Claim C3 fails on the code in two ways: `Pager(limit=-5, offset=0,
count=0, padding=10)` constructs successfully with the *negative* field
`limit = -5` (the `int(...)` coercions never clamp), and the invalid input
`limit=None` *raises* (`int(None)` is a `TypeError`, which the
`except ValueError` clause does not catch) instead of resetting to the
defaults. -/
theorem c3_counterexample :
    (Pager.init (.int (-5)) (.int 0) (.int 0) (.int 10) = .ok ⟨-5, 0, 0, 10⟩
      ∧ ¬ (0 : Int) ≤ -5) ∧
    Pager.init .none_ (.int 0) (.int 0) (.int 10) = .error .typeError := by
  refine ⟨⟨?_, ?_⟩, ?_⟩ <;> decide

/-- Claim C3 (amended): after `Pager` construction (when it returns) the
four fields are integers — namely the `int(...)` coercions of the inputs,
which may be negative — or all four are the defaults `(10, 0, 0, 10)`;
a `ValueError` during coercion (e.g. the unparsable string `"x"`) does not
raise but resets all four fields to the defaults; a `TypeError` (e.g. a
`None` input) propagates. -/
theorem c3_pager_init (limit offset count padding : PyVal) :
    (∀ li oi ci pi, pyIntCast limit = .ok li → pyIntCast offset = .ok oi →
      pyIntCast count = .ok ci → pyIntCast padding = .ok pi →
      Pager.init limit offset count padding = .ok ⟨li, oi, ci, pi⟩) ∧
    (∀ pg, Pager.init limit offset count padding = .ok pg →
      pg = ⟨10, 0, 0, 10⟩ ∨
      (pyIntCast limit = .ok pg.limit ∧ pyIntCast offset = .ok pg.offset ∧
       pyIntCast count = .ok pg.count ∧ pyIntCast padding = .ok pg.padding)) ∧
    (pyIntCast limit = .error .valueError →
      Pager.init limit offset count padding = .ok ⟨10, 0, 0, 10⟩) ∧
    (∀ li, pyIntCast limit = .ok li → pyIntCast offset = .error .valueError →
      Pager.init limit offset count padding = .ok ⟨10, 0, 0, 10⟩) ∧
    (∀ li oi, pyIntCast limit = .ok li → pyIntCast offset = .ok oi →
      pyIntCast count = .error .valueError →
      Pager.init limit offset count padding = .ok ⟨10, 0, 0, 10⟩) ∧
    (∀ li oi ci, pyIntCast limit = .ok li → pyIntCast offset = .ok oi →
      pyIntCast count = .ok ci → pyIntCast padding = .error .valueError →
      Pager.init limit offset count padding = .ok ⟨10, 0, 0, 10⟩) := by
  refine ⟨?_, ?_, ?_, ?_, ?_, ?_⟩
  · intro li oi ci pi h1 h2 h3 h4
    unfold Pager.init
    rw [h1, h2, h3, h4]
  · intro pg hpg
    unfold Pager.init at hpg
    cases h1 : pyIntCast limit with
    | error e =>
      rw [h1] at hpg
      cases e <;> simp_all
    | ok li =>
      rw [h1] at hpg
      cases h2 : pyIntCast offset with
      | error e =>
        rw [h2] at hpg
        cases e <;> simp_all
      | ok oi =>
        rw [h2] at hpg
        cases h3 : pyIntCast count with
        | error e =>
          rw [h3] at hpg
          cases e <;> simp_all
        | ok ci =>
          rw [h3] at hpg
          cases h4 : pyIntCast padding with
          | error e =>
            rw [h4] at hpg
            cases e <;> simp_all
          | ok pi =>
            rw [h4] at hpg
            right
            injection hpg with h5
            subst h5
            exact ⟨rfl, rfl, rfl, rfl⟩
  · intro h1
    unfold Pager.init
    rw [h1]
  · intro li h1 h2
    unfold Pager.init
    rw [h1, h2]
  · intro li oi h1 h2 h3
    unfold Pager.init
    rw [h1, h2, h3]
  · intro li oi ci h1 h2 h3 h4
    unfold Pager.init
    rw [h1, h2, h3, h4]

/-- Witness for `c3_pager_init`: integer inputs pass through untouched, and
the unparsable string `"x"` resets all four fields. -/
theorem c3_pager_init_witness :
    Pager.init (.int 7) (.int 3) (.int 4) (.int 5) = .ok ⟨7, 3, 4, 5⟩ ∧
    Pager.init (.str "x") (.int 3) (.int 4) (.int 5) = .ok ⟨10, 0, 0, 10⟩ :=
  ⟨(c3_pager_init (.int 7) (.int 3) (.int 4) (.int 5)).1 7 3 4 5 rfl rfl rfl rfl,
   (c3_pager_init (.str "x") (.int 3) (.int 4) (.int 5)).2.2.1 (by decide)⟩

/-! ## Claims C4, C5, C6: the SelectFilter family -/

/-- Helper: a truthy selector value that is a stored choice other than
`'all'` produces the equality predicate. -/
theorem selectQuery_eq_of_choice (f : SelectFilter) (v : String)
    (hs : SelectFilter.selector f = some v) (hne : v ≠ "")
    (hmem : v ∈ SelectFilter.choiceNames f) (hall : v ≠ "all") :
    SelectFilter.query f = .ok (some (.eqVal f.attribute_name (.str v))) := by
  simp only [SelectFilter.query, hs]
  rw [if_neg hne, if_neg (not_not_intro hmem), if_neg hall]

/-- The null-aware filter of claim C4, whose choice set does *not* declare
the sentinels. -/
def c4Filter : SelectFilter :=
  SelectFilter.make "a" [⟨"x", "X"⟩] [("select.a", "null")] none

/-- Claim C4 fails on the code: with declared choices `{x}` and selector
`"null"`, `NullSelectableSelectFilter.__query__` first runs the base
`__query__`, which rejects `"null"` as an invalid choice (raising, rather
than producing the is-null predicate) — the sentinels are *not* recognized
in addition to the declared choice set. -/
theorem c4_counterexample :
    NullSelectableSelectFilter.query c4Filter = .error .typeError ∧
    NullSelectableSelectFilter.query c4Filter ≠ .ok (some (.isNull "a")) := by
  refine ⟨?_, ?_⟩ <;> decide

/-- Claim C4 (amended): for a null-aware ChoiceFilter the sentinels are
honored only when they are also members of the stored choice set: when the
selector resolves to `"null"` and `"null"` is among the stored choice
names, evaluation yields the is-null predicate, and likewise `"not-null"`
yields the is-not-null predicate, both overriding the base equality
behavior; a sentinel outside the choice set makes the base evaluation
raise instead. -/
theorem c4_null_sentinels (attribute_name : String) (declared : List Choice)
    (args : List (String × String)) (dflt : Option String) :
    (SelectFilter.selector (SelectFilter.make attribute_name declared args dflt) = some "null" →
     "null" ∈ SelectFilter.choiceNames (SelectFilter.make attribute_name declared args dflt) →
     NullSelectableSelectFilter.query (SelectFilter.make attribute_name declared args dflt) =
       .ok (some (.isNull attribute_name))) ∧
    (SelectFilter.selector (SelectFilter.make attribute_name declared args dflt) = some "not-null" →
     "not-null" ∈ SelectFilter.choiceNames (SelectFilter.make attribute_name declared args dflt) →
     NullSelectableSelectFilter.query (SelectFilter.make attribute_name declared args dflt) =
       .ok (some (.isNotNull attribute_name))) := by
  constructor
  · intro hs hm
    unfold NullSelectableSelectFilter.query
    rw [selectQuery_eq_of_choice _ "null" hs (by decide) hm (by decide)]
    rw [hs]
    simp [SelectFilter.make]
  · intro hs hm
    unfold NullSelectableSelectFilter.query
    rw [selectQuery_eq_of_choice _ "not-null" hs (by decide) hm (by decide)]
    rw [hs]
    simp [SelectFilter.make]

/-- Witness for `c4_null_sentinels`: filters declaring both sentinels as
choices produce the is-null / is-not-null predicates. -/
theorem c4_null_sentinels_witness :
    NullSelectableSelectFilter.query
        (SelectFilter.make "a" [⟨"null", "N"⟩, ⟨"not-null", "NN"⟩]
          [("select.a", "null")] none) = .ok (some (.isNull "a")) ∧
    NullSelectableSelectFilter.query
        (SelectFilter.make "a" [⟨"null", "N"⟩, ⟨"not-null", "NN"⟩]
          [("select.a", "not-null")] none) = .ok (some (.isNotNull "a")) :=
  ⟨(c4_null_sentinels "a" [⟨"null", "N"⟩, ⟨"not-null", "NN"⟩]
      [("select.a", "null")] none).1 (by decide) (by decide),
   (c4_null_sentinels "a" [⟨"null", "N"⟩, ⟨"not-null", "NN"⟩]
      [("select.a", "not-null")] none).2 (by decide) (by decide)⟩

/-- The filter of the first C5 counterexample: a configured default and an
absent selector parameter. -/
def c5FilterDefault : SelectFilter :=
  SelectFilter.make "a" [⟨"b", "B"⟩] [] (some "b")

/-- The filter of the second C5 counterexample: an empty string both as a
declared choice name and as the supplied selector value. -/
def c5FilterEmpty : SelectFilter :=
  SelectFilter.make "a" [⟨"", "blank"⟩] [("select.a", "")] none

/-- Claim C5 fails on the code at two concrete inputs: with a configured
default `'b'` and the selector parameter *absent*, evaluation yields the
equality predicate on `'b'`, not the membership predicate; and with the
declared choice `''` supplied as the selector value, evaluation yields the
membership predicate (the `if not s` falsiness test), not equality on `''`. -/
theorem c5_counterexample :
    (SelectFilter.query c5FilterDefault = .ok (some (.eqVal "a" (.str "b"))) ∧
     SelectFilter.query c5FilterDefault ≠ .ok (some (.inList "a" ["all", "b"]))) ∧
    (SelectFilter.query c5FilterEmpty = .ok (some (.inList "a" ["all", ""])) ∧
     SelectFilter.query c5FilterEmpty ≠ .ok (some (.eqVal "a" (.str "")))) := by
  refine ⟨⟨?_, ?_⟩, ⟨?_, ?_⟩⟩ <;> decide

/-- Claim C5 (amended): for every ChoiceFilter, with the selector resolved
as `request_args.get('select.<attr>', default)`: when the resolved selector
is falsy (absent with no truthy default, or the empty string), evaluation
yields the membership predicate over the stored choice-name set (the
declared names plus `'all'` — never unrestricted); when it equals `'all'`,
evaluation yields no predicate; and when it equals a nonempty stored
choice name other than `'all'`, evaluation yields the equality predicate
on that exact value. -/
theorem c5_select_query (attribute_name : String) (declared : List Choice)
    (args : List (String × String)) (dflt : Option String) :
    (SelectFilter.selector (SelectFilter.make attribute_name declared args dflt) = none ∨
     SelectFilter.selector (SelectFilter.make attribute_name declared args dflt) = some "" →
     SelectFilter.query (SelectFilter.make attribute_name declared args dflt) =
       .ok (some (.inList attribute_name
         (SelectFilter.choiceNames (SelectFilter.make attribute_name declared args dflt))))) ∧
    (SelectFilter.selector (SelectFilter.make attribute_name declared args dflt) = some "all" →
     SelectFilter.query (SelectFilter.make attribute_name declared args dflt) = .ok none) ∧
    (∀ v, SelectFilter.selector (SelectFilter.make attribute_name declared args dflt) = some v →
     v ≠ "" → v ≠ "all" →
     v ∈ SelectFilter.choiceNames (SelectFilter.make attribute_name declared args dflt) →
     SelectFilter.query (SelectFilter.make attribute_name declared args dflt) =
       .ok (some (.eqVal attribute_name (.str v)))) := by
  refine ⟨?_, ?_, ?_⟩
  · intro hs
    cases hs with
    | inl h =>
      simp only [SelectFilter.query, h]
      exact rfl
    | inr h =>
      simp only [SelectFilter.query, h, if_true]
      exact rfl
  · intro hs
    have hmem : "all" ∈ SelectFilter.choiceNames
        (SelectFilter.make attribute_name declared args dflt) :=
      List.mem_cons_self _ _
    simp only [SelectFilter.query, hs]
    rw [if_neg (not_not_intro hmem), if_true, if_neg (show ¬("all" = "") by decide)]
  · intro v hs hne hall hmem
    rw [selectQuery_eq_of_choice _ v hs hne hmem hall]
    exact rfl

/-- Witness for `c5_select_query`: with declared choices `{m, f}`, an
absent selector restricts to `{all, m, f}`, selector `'all'` yields no
predicate, and selector `'m'` yields equality on `'m'`. -/
theorem c5_select_query_witness :
    SelectFilter.query (SelectFilter.make "a" [⟨"m", "M"⟩, ⟨"f", "F"⟩] [] none) =
      .ok (some (.inList "a" ["all", "m", "f"])) ∧
    SelectFilter.query (SelectFilter.make "a" [⟨"m", "M"⟩, ⟨"f", "F"⟩]
        [("select.a", "all")] none) = .ok none ∧
    SelectFilter.query (SelectFilter.make "a" [⟨"m", "M"⟩, ⟨"f", "F"⟩]
        [("select.a", "m")] none) = .ok (some (.eqVal "a" (.str "m"))) :=
  ⟨(c5_select_query "a" [⟨"m", "M"⟩, ⟨"f", "F"⟩] [] none).1 (Or.inl (by decide)),
   (c5_select_query "a" [⟨"m", "M"⟩, ⟨"f", "F"⟩] [("select.a", "all")] none).2.1 (by decide),
   (c5_select_query "a" [⟨"m", "M"⟩, ⟨"f", "F"⟩] [("select.a", "m")] none).2.2 "m"
     (by decide) (by decide) (by decide) (by decide)⟩

/-- The filter of the C6 failing input: declared choices `{x}`, supplied
selector value `'z'`. -/
def c6Filter : SelectFilter :=
  SelectFilter.make "a" [⟨"x", "X"⟩] [("select.a", "z")] none

/-- Claim C6 meets a code bug: `'z'` lies outside the stored choice set, so
the code executes `raise BadChoice(description=...)` — but `BadChoice`
subclasses plain `Exception`, whose `BaseException.__init__` rejects
keyword arguments, so constructing the exception raises
`TypeError: BadChoice() takes no keyword arguments` and a `TypeError`, not
a `BadChoice`, propagates to the caller. -/
theorem c6_badchoice_eval :
    "z" ∉ SelectFilter.choiceNames c6Filter ∧
    SelectFilter.query c6Filter = .error .typeError := by
  refine ⟨?_, ?_⟩ <;> decide

/-! ## Claim C7: the TypedEqualityFilter family -/

/-- The `Equal` filter of the C7 counterexample: type `int`, matching type
parameter, but *absent* word parameter. -/
def c7EqualNoWord : Equal :=
  { target := "music", attribute_name := "id", coerce := pyIntCoerce
    request_args := [("search_music.type", "id")] }

/-- The `EqualAlias` filter of the C7 counterexample: type `int`, matching
type parameter, word parameter present but empty. -/
def c7AliasEmptyWord : EqualAlias :=
  { identifier := "music", alias_name := "id", coerce := pyIntCoerce
    request_args := [("search_music.type", "id"), ("search_music.word", "")] }

/-- Claim C7 fails on the code at two concrete inputs: an active `Equal`
with type `int` and an *absent* word raises (`int(None)` is a `TypeError`,
and only `ValueError` is caught), so the coercion failure *is* surfaced;
and an `EqualAlias` whose type parameter matches but whose word is the
empty string is deactivated by the `if word and ...` truthiness guard and
yields *no* predicate rather than the always-false predicate. -/
theorem c7_counterexample :
    Equal.query c7EqualNoWord = .error .typeError ∧
    EqualAlias.query c7AliasEmptyWord = .ok none ∧
    EqualAlias.query c7AliasEmptyWord ≠ .ok (some .falseP) := by
  refine ⟨?_, ?_, ?_⟩ <;> decide

/-- Claim C7 (amended): for every active `Equal` (matching type parameter)
whose word coercion raises `ValueError` — e.g. type `int` and word
`"abc"` — evaluation yields the always-false predicate and does not raise;
likewise for every `EqualAlias` that is active (truthy word *and* matching
type parameter) with a `ValueError` coercion.  Only `ValueError` coercion
failures are recovered this way: a `TypeError` (absent word under `Equal`)
propagates, and an `EqualAlias` never coerces a falsy word at all. -/
theorem c7_coercion_failure :
    (∀ f : Equal,
      argsGet f.request_args (create_search_name f.target).2 = some f.attribute_name →
      f.coerce (argsGet f.request_args (create_search_name f.target).1) = .error .valueError →
      Equal.query f = .ok (some .falseP)) ∧
    (∀ g : EqualAlias,
      optTruthy (argsGet g.request_args (create_search_name g.identifier).1) = true →
      argsGet g.request_args (create_search_name g.identifier).2 = some g.alias_name →
      g.coerce (argsGet g.request_args (create_search_name g.identifier).1) = .error .valueError →
      EqualAlias.query g = .ok (some .falseP)) := by
  constructor
  · intro f ht hc
    unfold Equal.query
    rw [if_pos ht, hc]
  · intro g hw ht hc
    unfold EqualAlias.query
    rw [if_pos ⟨hw, ht⟩, hc]

/-- Witness for `c7_coercion_failure`: type `int`, word `"abc"`, matching
type parameters — both variants yield the always-false predicate. -/
theorem c7_coercion_failure_witness :
    Equal.query
      { target := "music", attribute_name := "id", coerce := pyIntCoerce
        request_args := [("search_music.type", "id"), ("search_music.word", "abc")] } =
      .ok (some .falseP) ∧
    EqualAlias.query
      { identifier := "m", alias_name := "name", coerce := pyIntCoerce
        request_args := [("search_m.type", "name"), ("search_m.word", "abc")] } =
      .ok (some .falseP) :=
  ⟨c7_coercion_failure.1
      { target := "music", attribute_name := "id", coerce := pyIntCoerce
        request_args := [("search_music.type", "id"), ("search_music.word", "abc")] }
      (by decide) (by decide),
   c7_coercion_failure.2
      { identifier := "m", alias_name := "name", coerce := pyIntCoerce
        request_args := [("search_m.type", "name"), ("search_m.word", "abc")] }
      (by decide) (by decide) (by decide)⟩

/-! ## Claim C10: the order resolver -/

/-- `getLast?` of a cons, phrased as a fallback match. -/
theorem getLast?_cons_match {α : Type} :
    ∀ (l : List α) (a : α),
      (a :: l).getLast? = match l.getLast? with
        | some b => some b
        | none => some a := by
  intro l
  induction l with
  | nil => intro a; rfl
  | cons b bs ih =>
    intro a
    rw [List.getLast?_cons_cons, ih b]
    cases hbs : bs.getLast? with
    | none => rfl
    | some c => rfl

/-- The overwrite-fold of `Order.of_column` computes the *last* matching
token, falling back to the initial accumulator. -/
theorem foldl_tokenDir (attr : String) :
    ∀ (toks : List String) (init : Option OrderDir),
      toks.foldl
        (fun acc o =>
          match Order.tokenDir attr o with
          | some d => some d
          | none => acc) init =
      match (toks.filterMap (Order.tokenDir attr)).getLast? with
      | some d => some d
      | none => init := by
  intro toks
  induction toks with
  | nil => intro init; rfl
  | cons o rest ih =>
    intro init
    rw [List.foldl_cons, List.filterMap_cons]
    cases ho : Order.tokenDir attr o with
    | none => rw [ih]
    | some d =>
      rw [ih, getLast?_cons_match]
      cases hrest : (rest.filterMap (Order.tokenDir attr)).getLast? with
      | none => rfl
      | some d2 => rfl

/-- Claim C10: `Order.of_column` returns `none` for an absent, falsy or
non-string `order_by` parameter; on a nonempty string it resolves to the
*last* comma-separated `<attr>.asc` / `<attr>.desc` token that matches the
attribute (so a later token wins), `none` when no token matches; in
particular `of_column("name", "name.asc,other.desc")` is ascending and
`of_column("name", "")` is `none`. -/
theorem c10_order_resolver :
    (∀ (attr : String) (v : PyVal), isPyStr v = false ∨ pyTruthy v = false →
      Order.of_column attr v = none) ∧
    (∀ (attr s : String), s ≠ "" →
      Order.of_column attr (.str s) =
        ((pySplit s ',').filterMap (Order.tokenDir attr)).getLast?) ∧
    Order.of_column "name" (.str "name.asc,other.desc") = some .asc ∧
    Order.of_column "name" (.str "") = none := by
  refine ⟨?_, ?_, ?_, ?_⟩
  · intro attr v hv
    cases v with
    | int n => rfl
    | none_ => rfl
    | str s =>
      cases hv with
      | inl h => exact absurd h (by simp [isPyStr])
      | inr h =>
        have hs : s = "" := by simpa [pyTruthy] using h
        subst hs
        simp [Order.of_column]
  · intro attr s hs
    simp only [Order.of_column, if_neg hs]
    rw [foldl_tokenDir]
    cases hx : ((pySplit s ',').filterMap (Order.tokenDir attr)).getLast? with
    | none => rfl
    | some d => rfl
  · decide
  · decide

/-- Witness for `c10_order_resolver`: a non-string parameter resolves to
`none`, and on `"name.desc,name.asc"` the later matching token wins. -/
theorem c10_order_resolver_witness :
    Order.of_column "a" (.int 5) = none ∧
    Order.of_column "name" (.str "name.desc,name.asc") =
      ((pySplit "name.desc,name.asc" ',').filterMap (Order.tokenDir "name")).getLast? :=
  ⟨c10_order_resolver.1 "a" (.int 5) (Or.inl rfl),
   c10_order_resolver.2.1 "name" "name.desc,name.asc" (by decide)⟩

/-! ## Claim C9: the combined substring filter -/

/-- The contribution of one attached filter to `IlikeSet.__query__`: its
predicate when it is an `Ilike` instance whose query is active (non-`None`
and non-raising), nothing otherwise. -/
def FilterPrim.activeIlikePred (f : FilterPrim) : Option BasePred :=
  if FilterPrim.isIlike f then
    match FilterPrim.query f with
    | .ok (some p) => some p
    | _ => none
  else none

/-- All filters attached to the table's columns, in walk order. -/
def Table.allFilters (t : Table) : List FilterPrim :=
  (t._columns.map Column.filters).flatten

/-- The inner collection loop of `IlikeSet.__query__` equals a `filterMap`
when no `Ilike`-instance query on the list raises. -/
theorem collectIlike_eq_filterMap :
    ∀ (fs : List FilterPrim),
      (∀ f ∈ fs, FilterPrim.isIlike f = true → exIsOk (FilterPrim.query f) = true) →
      collectIlike fs = .ok (fs.filterMap FilterPrim.activeIlikePred) := by
  intro fs
  induction fs with
  | nil => intro _; rfl
  | cons f rest ih =>
    intro h
    have hrest : ∀ g ∈ rest, FilterPrim.isIlike g = true → exIsOk (FilterPrim.query g) = true :=
      fun g hg => h g (List.mem_cons_of_mem f hg)
    rw [List.filterMap_cons]
    unfold collectIlike
    by_cases hil : FilterPrim.isIlike f = true
    · rw [if_pos hil]
      cases hq : FilterPrim.query f with
      | error e =>
        have hok := h f (List.mem_cons_self f rest) hil
        rw [hq] at hok
        exact absurd hok (by simp [exIsOk])
      | ok q =>
        cases q with
        | none =>
          rw [ih hrest]
          simp [FilterPrim.activeIlikePred, hil, hq]
        | some p =>
          rw [ih hrest]
          simp [FilterPrim.activeIlikePred, hil, hq]
    · rw [if_neg hil]
      rw [ih hrest]
      have hil2 : FilterPrim.isIlike f = false := by
        cases hfi : FilterPrim.isIlike f
        · rfl
        · exact absurd hfi hil
      simp [FilterPrim.activeIlikePred, hil2]

/-- The outer column walk of `IlikeSet.__query__` equals a `filterMap` over
all attached filters when no `Ilike`-instance query raises. -/
theorem collectIlikeCols_eq_filterMap :
    ∀ (cols : List Column),
      (∀ f ∈ (cols.map Column.filters).flatten, FilterPrim.isIlike f = true →
        exIsOk (FilterPrim.query f) = true) →
      collectIlikeCols cols = .ok ((cols.map Column.filters).flatten.filterMap
        FilterPrim.activeIlikePred) := by
  intro cols
  induction cols with
  | nil => intro _; rfl
  | cons c rest ih =>
    intro h
    have hc : ∀ f ∈ c.filters, FilterPrim.isIlike f = true → exIsOk (FilterPrim.query f) = true :=
      fun f hf => h f (by
        simp only [List.map_cons, List.flatten_cons]
        exact List.mem_append_left _ hf)
    have hrest : ∀ f ∈ (rest.map Column.filters).flatten, FilterPrim.isIlike f = true →
        exIsOk (FilterPrim.query f) = true :=
      fun f hf => h f (by
        simp only [List.map_cons, List.flatten_cons]
        exact List.mem_append_right _ hf)
    unfold collectIlikeCols
    rw [collectIlike_eq_filterMap c.filters hc, ih hrest]
    simp [List.filterMap_append]

/-- Claim C9: when no `Ilike`-instance query on the owning table raises,
`IlikeSet.__query__` walks every column of the table (visible or not),
collects every active (non-`None`) `Ilike`-instance predicate in walk
order, and returns their OR-combination as one predicate — and no
predicate at all when zero are active. -/
theorem c9_ilikeset_query (t : Table)
    (h : ∀ f ∈ Table.allFilters t, FilterPrim.isIlike f = true →
      exIsOk (FilterPrim.query f) = true) :
    IlikeSet.query t =
      .ok (match (Table.allFilters t).filterMap FilterPrim.activeIlikePred with
        | [] => none
        | ps => some (.orL ps)) := by
  unfold IlikeSet.query
  rw [collectIlikeCols_eq_filterMap t._columns h]
  cases hps : (Table.allFilters t).filterMap FilterPrim.activeIlikePred with
  | nil =>
    unfold Table.allFilters at hps
    rw [hps]
  | cons p ps =>
    unfold Table.allFilters at hps
    rw [hps]

/-- The shared request parameters of the C9 witness: both columns' `Ilike`
filters are active. -/
def c9Args : List (String × String) :=
  [("search_music.type", "name"), ("search_music.word", "abc"),
   ("search_artist.type", "genre"), ("search_artist.word", "xy")]

/-- First column of the C9 witness table, with an active `Ilike`. -/
def c9ColA : Column :=
  { attr := "name", order_by := none, visible := true
    filters := [.ilikeF { target := "music", attribute_name := "name", request_args := c9Args }] }

/-- Second column of the C9 witness table, with an active `Ilike`. -/
def c9ColB : Column :=
  { attr := "genre", order_by := none, visible := true
    filters := [.ilikeF { target := "artist", attribute_name := "genre", request_args := c9Args }] }

/-- The C9 witness table. -/
def c9Table : Table :=
  { _columns := [c9ColA, c9ColB], _filters := [.ilikeSetF], rows := [], pager := ⟨1, 0, 0, 10⟩ }

/-- Witness for `c9_ilikeset_query`: two active substring filters on two
columns OR-combine into one predicate. -/
theorem c9_ilikeset_query_witness :
    IlikeSet.query c9Table =
      .ok (some (.orL [.ilike "name" "%abc%", .ilike "genre" "%xy%"])) :=
  (c9_ilikeset_query c9Table (by decide)).trans (by decide)

/-! ## Claim C8: the default-ordering fallback -/

/-- Splitting a column list at its first visible column: the prefix is
invisible, and `mutateFirstVisible` rewrites exactly that column. -/
theorem firstVisible_split (d : OrderDir) :
    ∀ (cols : List Column), cols.filter (fun c => c.visible) ≠ [] →
      ∃ pre c post,
        cols = pre ++ c :: post ∧
        (∀ x ∈ pre, x.visible = false) ∧ c.visible = true ∧
        mutateFirstVisible d cols = pre ++ { c with order_by := some d } :: post ∧
        cols.filter (fun c => c.visible) = c :: post.filter (fun c => c.visible) := by
  intro cols
  induction cols with
  | nil => intro h; exact absurd rfl h
  | cons a rest ih =>
    intro h
    by_cases hv : a.visible = true
    · refine ⟨[], a, rest, by simp, by simp, hv, ?_, ?_⟩
      · simp [mutateFirstVisible, hv]
      · simp [List.filter_cons, hv]
    · have hv2 : a.visible = false := by
        cases hva : a.visible
        · rfl
        · exact absurd hva hv
      have h' : rest.filter (fun c => c.visible) ≠ [] := by
        intro hr
        apply h
        simp [List.filter_cons, hv2, hr]
      obtain ⟨pre, c, post, h1, h2, h3, h4, h5⟩ := ih h'
      refine ⟨a :: pre, c, post, by rw [List.cons_append, ← h1], ?_, h3, ?_, ?_⟩
      · intro x hx
        rcases List.mem_cons.mp hx with hxa | hx2
        · rw [hxa]; exact hv2
        · exact h2 x hx2
      · simp only [mutateFirstVisible, hv2, if_neg]
        rw [h4, List.cons_append]
        simp [hv2]
      · simp [List.filter_cons, hv2, h5]

/-- Claim C8 (amended): when no *visible* column carries a sort direction,
`Table._order_queries` falls back to descending order on the table's first
*visible* column — not necessarily the first declared one — writing
`desc` into exactly that column's stored `order_by` and leaving every
other column (including invisible ones preceding it) unchanged. -/
theorem c8_order_fallback (t : Table)
    (hnone : ∀ c ∈ Table.visibleColumns t, c.order_by = none)
    (hvis : Table.visibleColumns t ≠ []) :
    ∃ pre c post,
      t._columns = pre ++ c :: post ∧
      (∀ x ∈ pre, x.visible = false) ∧
      c.visible = true ∧ c.order_by = none ∧
      Table._order_queries t =
        .ok ([OrderQuery.desc c.attr],
             { t with _columns := pre ++ { c with order_by := some .desc } :: post }) := by
  have horder : Table.orderList t = [] := by
    apply List.filterMap_eq_nil_iff.mpr
    intro c hc
    rw [hnone c hc]
    rfl
  obtain ⟨pre, c, post, h1, h2, h3, h4, h5⟩ :=
    firstVisible_split .desc t._columns (by
      intro hf
      exact hvis hf)
  refine ⟨pre, c, post, h1, h2, h3, ?_, ?_⟩
  · exact hnone c (by
      unfold Table.visibleColumns
      rw [h5]
      exact List.mem_cons_self _ _)
  · unfold Table._order_queries Table.visibleColumns
    rw [if_pos horder, h5, h4]
    rfl

/-- The hidden first column of the C8 counterexample table. -/
def c8Hidden : Column := { attr := "a", order_by := none, visible := false, filters := [] }

/-- The visible second column of the C8 counterexample table. -/
def c8Visible : Column := { attr := "b", order_by := none, visible := true, filters := [] }

/-- The C8 counterexample table: the first *declared* column is hidden. -/
def c8Table : Table :=
  { _columns := [c8Hidden, c8Visible], _filters := [], rows := [], pager := ⟨1, 0, 0, 10⟩ }

/-- Claim C8 fails on the code: on a table whose first declared column is
hidden and no column is ordered, the fallback orders by and mutates the
first *visible* column `b` (`self.columns[0]` indexes the visible
subsequence), leaving the first *declared* column `a` at `none` — the
resulting stored directions are `[none, desc]`, not `[desc, none]`. -/
theorem c8_counterexample :
    (Table._order_queries c8Table).map
        (fun r => (r.1, r.2._columns.map Column.order_by)) =
      .ok ([OrderQuery.desc "b"], [none, some OrderDir.desc]) := by
  rfl

/-- Witness for `c8_order_fallback` at the two-column table `c8Table`. -/
theorem c8_order_fallback_witness :
    ∃ pre c post,
      c8Table._columns = pre ++ c :: post ∧
      (∀ x ∈ pre, x.visible = false) ∧
      c.visible = true ∧ c.order_by = none ∧
      Table._order_queries c8Table =
        .ok ([OrderQuery.desc c.attr],
             { c8Table with _columns := pre ++ { c with order_by := some .desc } :: post }) :=
  c8_order_fallback c8Table (by decide)
    (by
      rw [show Table.visibleColumns c8Table = [c8Visible] from rfl]
      exact List.cons_ne_nil _ _)

/-! ## Claim C1: row materialization in `Table.select` -/

/-- `mutateFirstVisible` keeps the visible subsequence nonempty. -/
theorem mutateFirstVisible_filter_ne_nil (d : OrderDir) (cols : List Column)
    (h : cols.filter (fun c => c.visible) ≠ []) :
    (mutateFirstVisible d cols).filter (fun c => c.visible) ≠ [] := by
  obtain ⟨pre, c, post, h1, h2, h3, h4, h5⟩ := firstVisible_split d cols h
  rw [h4]
  apply List.ne_nil_of_mem (a := { c with order_by := some d })
  rw [List.mem_filter]
  exact ⟨List.mem_append_right _ (List.mem_cons_self _ _), h3⟩

/-- A successful `_order_queries` leaves the table with at least one
visible column. -/
theorem order_queries_visible (t : Table) (r : List OrderQuery × Table)
    (h : Table._order_queries t = .ok r) : Table.visibleColumns r.2 ≠ [] := by
  unfold Table._order_queries at h
  by_cases ho : Table.orderList t = []
  · rw [if_pos ho] at h
    cases hv : Table.visibleColumns t with
    | nil => rw [hv] at h; cases h
    | cons c cs =>
      rw [hv] at h
      injection h with h2
      rw [← h2]
      exact mutateFirstVisible_filter_ne_nil .desc t._columns (by
        intro hf
        unfold Table.visibleColumns at hv
        rw [hf] at hv
        cases hv)
  · rw [if_neg ho] at h
    injection h with h2
    rw [← h2]
    intro hv
    apply ho
    unfold Table.orderList
    rw [hv]
    rfl

/-- A successfully built query leaves the table with at least one visible
column (the fallback of `_order_queries` would otherwise have raised
`IndexError`). -/
theorem query_ok_visible (t : Table) (r : DBQuery × Table)
    (h : Table.query t = .ok r) : Table.visibleColumns r.2 ≠ [] := by
  unfold Table.query at h
  cases hb : Table.build_base_query t with
  | error e => rw [hb] at h; cases h
  | ok ps =>
    rw [hb] at h
    cases hoq : Table._order_queries t with
    | error e => rw [hoq] at h; cases h
    | ok ot =>
      obtain ⟨os, t'⟩ := ot
      rw [hoq] at h
      injection h with h2
      rw [← h2]
      exact order_queries_visible t (os, t') hoq

/-- Unfolding `Table.select` past a successfully built query. -/
theorem select_eq (t : Table) (off lim cnt : Int) (slice : List PyObj)
    (q : DBQuery) (t1 : Table) (hQ : Table.query t = .ok (q, t1)) :
    Table.select t off lim slice cnt =
      match materializeRows (Table.visibleColumns t1) 0 slice with
      | .error e => .error e
      | .ok rows =>
        .ok { t1 with
              rows := rows
              pager := { limit := lim, offset := off, count := cnt, padding := 10 } } := by
  unfold Table.select
  rw [hQ]

/-- With at least one visible column, materializing any nonempty row slice
stops at the unbound name `default`. -/
theorem materializeRows_cons_ne (cols : List Column) (hc : cols ≠ []) (i : Nat)
    (r : PyObj) (rs : List PyObj) :
    materializeRows cols i (r :: rs) = .error (.nameError "default") := by
  cases cols with
  | nil => exact absurd rfl hc
  | cons c cs => rfl

/-- Claim C1: on every table whose query builds successfully, a `select`
whose sliced query yields at least one row raises
`NameError: name 'default' is not defined` (from the `pprint(default)`
call in the row-materialization loop) instead of returning the table, and
`select` returns the table normally only when the result slice is empty. -/
theorem c1_select_raises (t : Table) (off lim cnt : Int) (slice : List PyObj)
    (hq : exIsOk (Table.query t) = true) :
    (slice ≠ [] → Table.select t off lim slice cnt = .error (.nameError "default")) ∧
    (∀ t', Table.select t off lim slice cnt = .ok t' → slice = []) := by
  cases hQ : Table.query t with
  | error e =>
    rw [hQ] at hq
    exact absurd hq (by simp [exIsOk])
  | ok r =>
    obtain ⟨q, t1⟩ := r
    have hvis : Table.visibleColumns t1 ≠ [] := query_ok_visible t (q, t1) hQ
    constructor
    · intro hs
      cases slice with
      | nil => exact absurd rfl hs
      | cons r0 rs =>
        rw [select_eq t off lim cnt (r0 :: rs) q t1 hQ]
        rw [materializeRows_cons_ne _ hvis 0 r0 rs]
    · intro t' ht'
      cases slice with
      | nil => rfl
      | cons r0 rs =>
        rw [select_eq t off lim cnt (r0 :: rs) q t1 hQ] at ht'
        rw [materializeRows_cons_ne _ hvis 0 r0 rs] at ht'
        exact Except.noConfusion ht'

/-- The single visible column of the C1 witness table. -/
def c1Column : Column := { attr := "name", order_by := none, visible := true, filters := [] }

/-- The C1 witness table. -/
def c1Table : Table :=
  { _columns := [c1Column], _filters := [], rows := [], pager := ⟨1, 0, 0, 10⟩ }

/-- A data row for the C1 witness. -/
def c1Row : PyObj := .obj [("name", .leaf (.str "abc"))]

/-- Witness for `c1_select_raises`: a one-row slice makes `select` raise
the `NameError`, and the empty slice returns the table. -/
theorem c1_select_raises_witness :
    Table.select c1Table 0 10 [c1Row] 1 = .error (.nameError "default") ∧
    ∀ t', Table.select c1Table 0 10 [] 1 = .ok t' → ([] : List PyObj) = [] :=
  ⟨(c1_select_raises c1Table 0 10 1 [c1Row] (by rfl)).1 (List.cons_ne_nil _ _),
   (c1_select_raises c1Table 0 10 1 [] (by rfl)).2⟩
